import Mathlib

set_option maxRecDepth 100000
set_option maxHeartbeats 4000000

/-!
Shallow embedding of the profile store, merge engine, persistence/migration
logic and report exporters of the profiling single-page application
(`src/unnamed/part_000` = `App.tsx`, `src/unnamed/part_001` = `types.ts` +
`services/gemini.ts`).

JavaScript objects with string keys iterate in insertion order, so the
profile dictionary is modelled as an insertion-ordered association list.
JavaScript string truthiness (`undefined`/`""` falsy) is modelled on
`Option String` by `jsTruthy`.  Calls to `crypto.randomUUID()` and
`Date.now()` are modelled as explicit parameters, and `JSON.parse` (which
throws on malformed input) as an `Option`-returning oracle parameter.
-/

/-- `MediaType` enum from `types.ts` (the `AUDIO` member is spelled `AUDIO_`
here; its string value below is unchanged). -/
inductive MediaType where
  | IMAGE
  | PDF
  | AUDIO_
  | VIDEO
  | TEXT_FILE
  | HTML
deriving DecidableEq, Repr

/-- String value of a `MediaType`, as interpolated by JS template literals. -/
def mediaTypeStr : MediaType → String
  | .IMAGE => "IMAGE"
  | .PDF => "PDF"
  | .AUDIO_ => "AUDIO"
  | .VIDEO => "VIDEO"
  | .TEXT_FILE => "TEXT_FILE"
  | .HTML => "HTML"

/-- `AnalysisHistoryItem` from `types.ts`. -/
structure AnalysisHistoryItem where
  id : String
  timestamp : Nat
  type : MediaType
  summary : String
  fileName : Option String
deriving DecidableEq, Repr

/-- `BigFiveScores` from `types.ts` (JS numbers modelled as integers). -/
structure BigFiveScores where
  openness : Int
  conscientiousness : Int
  extraversion : Int
  agreeableness : Int
  neuroticism : Int
deriving DecidableEq, Repr

/-- `PsychologicalProfile` from `types.ts`. -/
structure PsychologicalProfile where
  id : String
  firstName : String
  lastName : String
  dateOfBirth : String
  lastUpdated : Nat
  bigFive : BigFiveScores
  mbti : String
  enneagram : String
  attachmentStyle : String
  summary : String
  keyTraits : List String
  bodyLanguageNotes : List String
  toneVoiceNotes : List String
  history : List AnalysisHistoryItem
deriving DecidableEq, Repr

/-- Optional candidate identity fields of `AnalysisResponse.candidateProfile`. -/
structure CandidateProfile where
  firstName : Option String
  lastName : Option String
  dateOfBirth : Option String
deriving DecidableEq, Repr

/-- `AnalysisResponse` from `types.ts`: the structured delta returned by the
external analysis call. -/
structure AnalysisResponse where
  candidateProfile : Option CandidateProfile
  bigFive : BigFiveScores
  mbti : String
  enneagram : String
  attachmentStyle : String
  summary : String
  keyTraits : List String
  newObservations : String
  bodyLanguageAnalysis : Option String
  toneAnalysis : Option String
deriving DecidableEq, Repr

/-- JS truthiness of a possibly-absent string field: `undefined` and `""` are
falsy, every other string is truthy. -/
def jsTruthy (o : Option String) : Bool :=
  !(o.getD "" == "")

/-- `generateNewProfile` from `App.tsx`, with `crypto.randomUUID()` and
`Date.now()` passed explicitly. -/
def generateNewProfile (freshId : String) (now : Nat) : PsychologicalProfile :=
  { id := freshId
    firstName := "New"
    lastName := "Subject"
    dateOfBirth := ""
    lastUpdated := now
    bigFive :=
      { openness := 50
        conscientiousness := 50
        extraversion := 50
        agreeableness := 50
        neuroticism := 50 }
    mbti := "Unknown"
    enneagram := "Unknown"
    attachmentStyle := "Unknown"
    summary := "Profile pending. Upload evidence (text screenshots, photos, videos, audio) to begin the psychological profiling process."
    keyTraits := []
    bodyLanguageNotes := []
    toneVoiceNotes := []
    history := [] }

/-- The profile dictionary `Record<string, PsychologicalProfile>`, as an
insertion-ordered association list (JS string-keyed objects iterate in
insertion order). -/
abbrev Store := List (String × PsychologicalProfile)

/-- Indexing `profiles[key]` on the JS object. -/
def lookupStore : Store → String → Option PsychologicalProfile
  | [], _ => none
  | (k, v) :: rest, key => if k = key then some v else lookupStore rest key

/-- `{ ...prev, [key]: v }`: replace the value at `key` in place when the key
exists, otherwise append the new binding at the end. -/
def setStore (s : Store) (key : String) (v : PsychologicalProfile) : Store :=
  if (lookupStore s key).isSome then
    s.map (fun kv => if kv.1 = key then (key, v) else kv)
  else
    s ++ [(key, v)]

/-- `delete newProfiles[key]`: drop the binding, keeping the order of the
remaining entries. -/
def eraseStore (s : Store) (key : String) : Store :=
  s.filter (fun kv => !(kv.1 == key))

/-- Object.keys of the store. -/
def storeKeys (s : Store) : List String :=
  s.map Prod.fst

/-- The file label computed for the new history entry in `handleAnalysis`:
`files.length > 1 ? \x60${files.length} files uploaded\x60 : files[0].name`. -/
def historyFileLabel (files : List String) : String :=
  if files.length > 1 then toString files.length ++ " files uploaded"
  else files.headD ""

/-- The profile update performed inside `setProfiles` in `handleAnalysis`
(`App.tsx` lines 241–289) on the current active profile, given the analysis
result.  `files` is the list of uploaded file names, `histId` the generated
`crypto.randomUUID()` for the history entry and `now` the `Date.now()`
timestamp. -/
def mergeProfile (current : PsychologicalProfile) (result : AnalysisResponse)
    (type : MediaType) (files : List String) (histId : String) (now : Nat) :
    PsychologicalProfile :=
  let newHistoryItem : AnalysisHistoryItem :=
    { id := histId
      timestamp := now
      type := type
      summary := result.newObservations
      fileName := some (historyFileLabel files) }
  let newBodyLanguage :=
    if jsTruthy result.bodyLanguageAnalysis then
      current.bodyLanguageNotes ++ [result.bodyLanguageAnalysis.getD ""]
    else current.bodyLanguageNotes
  let newToneNotes :=
    if jsTruthy result.toneAnalysis then
      current.toneVoiceNotes ++ [result.toneAnalysis.getD ""]
    else current.toneVoiceNotes
  let newFirstName :=
    match result.candidateProfile with
    | some c =>
      if jsTruthy c.firstName &&
          (current.firstName == "New" || current.firstName == "Subject" ||
            current.firstName == "") then
        c.firstName.getD ""
      else current.firstName
    | none => current.firstName
  let newLastName :=
    match result.candidateProfile with
    | some c =>
      if jsTruthy c.lastName &&
          (current.lastName == "Subject" || current.lastName == "001" ||
            current.lastName == "") then
        c.lastName.getD ""
      else current.lastName
    | none => current.lastName
  let newDOB :=
    match result.candidateProfile with
    | some c =>
      if jsTruthy c.dateOfBirth && current.dateOfBirth == "" then
        c.dateOfBirth.getD ""
      else current.dateOfBirth
    | none => current.dateOfBirth
  { current with
    firstName := newFirstName
    lastName := newLastName
    dateOfBirth := newDOB
    lastUpdated := now
    bigFive := result.bigFive
    mbti := result.mbti
    enneagram := result.enneagram
    attachmentStyle := result.attachmentStyle
    summary := result.summary
    keyTraits := result.keyTraits
    bodyLanguageNotes := newBodyLanguage
    toneVoiceNotes := newToneNotes
    history := current.history ++ [newHistoryItem] }

/-- The `setProfiles` state transition of `handleAnalysis` (`App.tsx` lines
237–295): look up the active profile; when it is missing return the store
unchanged (`if (!current) return prev`), otherwise rebind the active id to the
merged profile. -/
def handleAnalysisUpdate (prev : Store) (activeProfileId : String)
    (result : AnalysisResponse) (type : MediaType) (files : List String)
    (histId : String) (now : Nat) : Store :=
  match lookupStore prev activeProfileId with
  | none => prev
  | some current =>
      setStore prev activeProfileId
        (mergeProfile current result type files histId now)

/-- The confirmed branch of `handleDeleteProfile` (`App.tsx` lines 171–190):
remove the active binding; if nothing remains, install a fresh default profile
and activate it, otherwise activate the first remaining key in iteration
order.  Returns the new store paired with the new active id. -/
def handleDeleteProfile (profiles : Store) (activeProfileId : String)
    (fresh : PsychologicalProfile) : Store × String :=
  let newProfiles := eraseStore profiles activeProfileId
  let remainingIds := storeKeys newProfiles
  match remainingIds with
  | [] => ([(fresh.id, fresh)], fresh.id)
  | firstId :: _ => (newProfiles, firstId)

/-- A legacy single-profile record (`psycho_profile_v3` key): every profile
field optional, plus the historical combined `name` field. -/
structure LegacyProfile where
  id : Option String
  firstName : Option String
  lastName : Option String
  name : Option String
  dateOfBirth : Option String
  lastUpdated : Option Nat
  bigFive : Option BigFiveScores
  mbti : Option String
  enneagram : Option String
  attachmentStyle : Option String
  summary : Option String
  keyTraits : Option (List String)
  bodyLanguageNotes : Option (List String)
  toneVoiceNotes : Option (List String)
  history : Option (List AnalysisHistoryItem)
deriving DecidableEq, Repr

/-- Character-level splitting on a separator, keeping empty chunks:
the behaviour of JS `"…".split(' ')` for a one-character separator. -/
def splitCharAux (sep : Char) : List Char → List Char → List String
  | [], acc => [String.mk acc.reverse]
  | ch :: rest, acc =>
    if ch = sep then String.mk acc.reverse :: splitCharAux sep rest []
    else splitCharAux sep rest (ch :: acc)

/-- JS `s.split(sep)` for a one-character separator. -/
def jsSplit (sep : Char) (s : String) : List String :=
  splitCharAux sep s.data []

/-- `parsedLegacy.firstName || parsedLegacy.name?.split(' ')[0] || "Subject"`:
first truthy alternative wins. -/
def legacyFirstName (leg : LegacyProfile) : String :=
  if jsTruthy leg.firstName then leg.firstName.getD ""
  else if jsTruthy (leg.name.map (fun n => (jsSplit ' ' n).headD "")) then
    (jsSplit ' ' (leg.name.getD "")).headD ""
  else "Subject"

/-- `parsedLegacy.lastName || parsedLegacy.name?.split(' ').slice(1).join(' ') || "001"`. -/
def legacyLastName (leg : LegacyProfile) : String :=
  if jsTruthy leg.lastName then leg.lastName.getD ""
  else if jsTruthy (leg.name.map
      (fun n => String.intercalate " " ((jsSplit ' ' n).tail))) then
    String.intercalate " " ((jsSplit ' ' (leg.name.getD "")).tail)
  else "001"

/-- The migrated profile built in `loadData` (`App.tsx` lines 91–97):
`{ ...generateNewProfile(), ...parsedLegacy, id: newId, firstName: …,
lastName: … }` — legacy fields, when present, overwrite the defaults, then
the id and the derived names overwrite in turn. -/
def migrateLegacy (leg : LegacyProfile) (defaults : PsychologicalProfile)
    (newId : String) : PsychologicalProfile :=
  { id := newId
    firstName := legacyFirstName leg
    lastName := legacyLastName leg
    dateOfBirth := leg.dateOfBirth.getD defaults.dateOfBirth
    lastUpdated := leg.lastUpdated.getD defaults.lastUpdated
    bigFive := leg.bigFive.getD defaults.bigFive
    mbti := leg.mbti.getD defaults.mbti
    enneagram := leg.enneagram.getD defaults.enneagram
    attachmentStyle := leg.attachmentStyle.getD defaults.attachmentStyle
    summary := leg.summary.getD defaults.summary
    keyTraits := leg.keyTraits.getD defaults.keyTraits
    bodyLanguageNotes := leg.bodyLanguageNotes.getD defaults.bodyLanguageNotes
    toneVoiceNotes := leg.toneVoiceNotes.getD defaults.toneVoiceNotes
    history := leg.history.getD defaults.history }

/-- A legacy record holding only the combined name "Jane Doe" and no
structured name fields. -/
def janeDoeLegacy : LegacyProfile :=
  { id := none, firstName := none, lastName := none, name := some "Jane Doe",
    dateOfBirth := none, lastUpdated := none, bigFive := none, mbti := none,
    enneagram := none, attachmentStyle := none, summary := none,
    keyTraits := none, bodyLanguageNotes := none, toneVoiceNotes := none,
    history := none }

/-- Result of `loadData`: the store and active id it installs, plus whether it
removed the legacy `psycho_profile_v3` key from persistence. -/
structure LoadResult where
  profiles : Store
  activeProfileId : Option String
  legacyRemoved : Bool
deriving DecidableEq, Repr

/-- Active-id restoration of the happy path (`App.tsx` lines 71–76):
`if (savedActiveId && parsedProfiles[savedActiveId]) … else keys[0]`, leaving
the active id `null` when the parsed map is empty. -/
def restoreActiveId (parsed : Store) (savedActiveId : Option String) :
    Option String :=
  match savedActiveId with
  | some aid =>
      if aid != "" && (lookupStore parsed aid).isSome then some aid
      else (storeKeys parsed).head?
  | none => (storeKeys parsed).head?

/-- `loadData` from `App.tsx` (lines 59–119).  `savedProfiles`,
`savedActiveId`, `legacyRaw` are the three `localStorage.getItem` results
(`none` = absent); the guards `if (savedProfiles)` and `if (legacyProfile)`
are JS truthiness (`jsTruthy`), so an empty-string payload is treated like an
absent one; `parseDb`/`parseLegacy` model `JSON.parse` on the respective
payloads (`none` = parse exception); `freshId`/`now` feed
`generateNewProfile`, `newId` is the `crypto.randomUUID()` of the migration
path.  Total: every branch, including the corruption branches, returns a
`LoadResult` rather than propagating an exception. -/
def loadData (savedProfiles savedActiveId legacyRaw : Option String)
    (parseDb : String → Option Store)
    (parseLegacy : String → Option LegacyProfile)
    (freshId newId : String) (now : Nat) : LoadResult :=
  if jsTruthy savedProfiles then
    match parseDb (savedProfiles.getD "") with
    | some parsed =>
        { profiles := parsed
          activeProfileId := restoreActiveId parsed savedActiveId
          legacyRemoved := false }
    | none =>
        let newP := generateNewProfile freshId now
        { profiles := [(newP.id, newP)]
          activeProfileId := some newP.id
          legacyRemoved := false }
  else if jsTruthy legacyRaw then
    match parseLegacy (legacyRaw.getD "") with
    | some parsedLegacy =>
        let migrated :=
          migrateLegacy parsedLegacy (generateNewProfile freshId now) newId
        { profiles := [(newId, migrated)]
          activeProfileId := some newId
          legacyRemoved := true }
    | none =>
        let newP := generateNewProfile freshId now
        { profiles := [(newP.id, newP)]
          activeProfileId := some newP.id
          legacyRemoved := false }
  else
    let newP := generateNewProfile freshId now
    { profiles := [(newP.id, newP)]
      activeProfileId := some newP.id
      legacyRemoved := false }

/-- JS `s.trim()`: strip leading and trailing whitespace. -/
def jsTrim (s : String) : String :=
  String.mk
    (((s.data.dropWhile Char.isWhitespace).reverse.dropWhile
        Char.isWhitespace).reverse)

/-- `generateTextReport` from `App.tsx` (lines 306–348).  The two
locale-dependent date renderings (`toLocaleString`, `toLocaleDateString`) are
passed as explicit formatting functions. -/
def generateTextReport (fmtDateTime fmtDate : Nat → String)
    (p : PsychologicalProfile) : String :=
  jsTrim
  ("\nPSYCHOLOGICAL PROFILE REPORT\n============================\nSUBJECT: "
    ++ p.firstName ++ " " ++ p.lastName
    ++ "\nDOB: " ++ (if p.dateOfBirth == "" then "Unknown" else p.dateOfBirth)
    ++ "\nLAST UPDATED: " ++ fmtDateTime p.lastUpdated
    ++ "\n\nEXECUTIVE SUMMARY\n-----------------\n" ++ p.summary
    ++ "\n\nPERSONALITY ARCHETYPE\n---------------------\nMBTI: " ++ p.mbti
    ++ "\nEnneagram: " ++ p.enneagram
    ++ "\nAttachment Style: " ++ p.attachmentStyle
    ++ "\n\nBIG FIVE METRICS (0-100)\n------------------------\nOpenness: "
    ++ toString p.bigFive.openness
    ++ "\nConscientiousness: " ++ toString p.bigFive.conscientiousness
    ++ "\nExtraversion: " ++ toString p.bigFive.extraversion
    ++ "\nAgreeableness: " ++ toString p.bigFive.agreeableness
    ++ "\nNeuroticism: " ++ toString p.bigFive.neuroticism
    ++ "\n\nKEY OBSERVED TRAITS\n-------------------\n"
    ++ String.intercalate "\n" (p.keyTraits.map (fun t => "- " ++ t))
    ++ "\n\nDETAILED ANALYSIS\n-----------------\n[Body Language & Kinesics]\n"
    ++ (if p.bodyLanguageNotes.length != 0 then
          String.intercalate "\n" (p.bodyLanguageNotes.map (fun n => "- " ++ n))
        else "No specific body language data.")
    ++ "\n\n[Voice & Tone]\n"
    ++ (if p.toneVoiceNotes.length != 0 then
          String.intercalate "\n" (p.toneVoiceNotes.map (fun n => "- " ++ n))
        else "No specific voice data.")
    ++ "\n\nANALYSIS HISTORY\n----------------\n"
    ++ String.intercalate "\n" (p.history.reverse.map (fun h =>
          "[" ++ fmtDate h.timestamp ++ "] " ++ mediaTypeStr h.type ++ ": "
            ++ h.summary.take 100 ++ "..."))
    ++ "\n    ")

/-- The constant `<style>` block of the HTML report (`App.tsx` lines
356–367). -/
def htmlStyleBlock : String :=
  "      body \x7b font-family: \x27Calibri\x27, \x27Arial\x27, sans-serif; line-height: 1.5; color: #1a1a1a; max-width: 800px; margin: 0 auto; padding: 20px; \x7d\n"
  ++ "      h1 \x7b color: #2563eb; border-bottom: 2px solid #2563eb; padding-bottom: 10px; font-size: 24px; margin-bottom: 20px; \x7d\n"
  ++ "      h2 \x7b color: #0f172a; background: #f1f5f9; padding: 8px; margin-top: 25px; font-size: 18px; border-left: 4px solid #2563eb; \x7d\n"
  ++ "      h3 \x7b color: #475569; margin-top: 15px; font-size: 16px; text-transform: uppercase; letter-spacing: 0.05em; \x7d\n"
  ++ "      .meta \x7b background: #f8fafc; padding: 15px; border-radius: 8px; border: 1px solid #e2e8f0; margin-bottom: 30px; \x7d\n"
  ++ "      .metric-row \x7b display: flex; justify-content: space-between; margin-bottom: 5px; border-bottom: 1px dotted #cbd5e1; padding-bottom: 2px; \x7d\n"
  ++ "      .tag \x7b background: #e0f2fe; color: #0369a1; padding: 2px 8px; border-radius: 12px; font-size: 0.9em; margin-right: 5px; display: inline-block; border: 1px solid #bae6fd; \x7d\n"
  ++ "      ul \x7b margin-top: 5px; padding-left: 20px; \x7d\n"
  ++ "      li \x7b margin-bottom: 4px; \x7d\n"
  ++ "      p \x7b text-align: justify; \x7d\n"

/-- `generateHTMLReport` from `App.tsx` (lines 350–412).  `fmtDateTime` and
`fmtDate` model `toLocaleString`/`toLocaleDateString`; `now` is the
`new Date()` taken at report-generation time (not the profile's
`lastUpdated`). -/
def generateHTMLReport (fmtDateTime fmtDate : Nat → String) (now : Nat)
    (p : PsychologicalProfile) : String :=
  "\n    <!DOCTYPE html>\n    <html xmlns:o=\x27urn:schemas-microsoft-com:office:office\x27 xmlns:w=\x27urn:schemas-microsoft-com:office:word\x27 xmlns=\x27http://www.w3.org/TR/REC-html40\x27>\n    <head>\n    <meta charset=\"utf-8\">\n    <title>Psychological Profile - "
  ++ p.firstName ++ " " ++ p.lastName
  ++ "</title>\n    <style>\n" ++ htmlStyleBlock
  ++ "    </style>\n    </head>\n    <body>\n      <h1>CONFIDENTIAL PSYCHOLOGICAL PROFILE</h1>\n      \n      <div class=\"meta\">\n        <p><strong>Subject:</strong> "
  ++ p.firstName ++ " " ++ p.lastName
  ++ "</p>\n        <p><strong>Date of Birth:</strong> "
  ++ (if p.dateOfBirth == "" then "Unknown" else p.dateOfBirth)
  ++ "</p>\n        <p><strong>Report Generated:</strong> " ++ fmtDateTime now
  ++ "</p>\n      </div>\n\n      <h2>EXECUTIVE SUMMARY</h2>\n      <p>"
  ++ p.summary
  ++ "</p>\n\n      <h2>PERSONALITY ARCHETYPE</h2>\n      <p>\n        <strong>MBTI:</strong> "
  ++ p.mbti
  ++ "<br/>\n        <strong>Enneagram:</strong> " ++ p.enneagram
  ++ "<br/>\n        <strong>Attachment Style:</strong> " ++ p.attachmentStyle
  ++ "\n      </p>\n\n      <h2>BIG FIVE METRICS</h2>\n      <div class=\"metric-row\"><span>Openness</span> <strong>"
  ++ toString p.bigFive.openness
  ++ "/100</strong></div>\n      <div class=\"metric-row\"><span>Conscientiousness</span> <strong>"
  ++ toString p.bigFive.conscientiousness
  ++ "/100</strong></div>\n      <div class=\"metric-row\"><span>Extraversion</span> <strong>"
  ++ toString p.bigFive.extraversion
  ++ "/100</strong></div>\n      <div class=\"metric-row\"><span>Agreeableness</span> <strong>"
  ++ toString p.bigFive.agreeableness
  ++ "/100</strong></div>\n      <div class=\"metric-row\"><span>Neuroticism</span> <strong>"
  ++ toString p.bigFive.neuroticism
  ++ "/100</strong></div>\n\n      <h2>OBSERVED TRAITS</h2>\n      <p>"
  ++ String.intercalate " "
      (p.keyTraits.map (fun t => "<span class=\"tag\">" ++ t ++ "</span>"))
  ++ "</p>\n\n      <h2>DETAILED ANALYSIS</h2>\n      \n      <h3>Body Language & Kinesics</h3>\n      <ul>"
  ++ (if p.bodyLanguageNotes.length > 0 then
        String.join (p.bodyLanguageNotes.map (fun n => "<li>" ++ n ++ "</li>"))
      else "<li>No specific body language data analyzed yet.</li>")
  ++ "</ul>\n\n      <h3>Tone & Voice</h3>\n      <ul>"
  ++ (if p.toneVoiceNotes.length > 0 then
        String.join (p.toneVoiceNotes.map (fun n => "<li>" ++ n ++ "</li>"))
      else "<li>No specific vocal data analyzed yet.</li>")
  ++ "</ul>\n\n      <h2>EVIDENCE LOG</h2>\n      <ul>\n        "
  ++ String.join (p.history.reverse.map (fun h =>
        "<li><strong>" ++ fmtDate h.timestamp ++ ":</strong> ("
          ++ mediaTypeStr h.type ++ ") " ++ h.summary ++ "</li>"))
  ++ "\n      </ul>\n    </body>\n    </html>\n  "

/-- A scalar field of a serialized history entry. -/
inductive HistField where
  | str : String → HistField
  | num : Nat → HistField
deriving DecidableEq, Repr

/-- JSON values occurring in the serialized Profile, for modelling
`JSON.stringify(activeProfile, null, 2)` in the `json` branch of
`handleExport`: strings, numbers, arrays of strings, the nested score object
(key/number pairs) and the history array of entry objects. -/
inductive JsonVal where
  | str : String → JsonVal
  | num : Int → JsonVal
  | strArr : List String → JsonVal
  | numObj : List (String × Int) → JsonVal
  | objArr : List (List (String × HistField)) → JsonVal
deriving DecidableEq, Repr

/-- Look up a key of a serialized JSON object. -/
def jsonMember (kvs : List (String × JsonVal)) (key : String) :
    Option JsonVal :=
  kvs.lookup key

/-- JSON serialization of one history entry; `JSON.stringify` omits the
optional `fileName` property when it is absent. -/
def jsonOfHistoryItem (h : AnalysisHistoryItem) : List (String × HistField) :=
  [("id", .str h.id), ("timestamp", .num h.timestamp),
    ("type", .str (mediaTypeStr h.type)), ("summary", .str h.summary)]
    ++ match h.fileName with
       | some f => [("fileName", HistField.str f)]
       | none => []

/-- JSON serialization of the Big Five scores. -/
def jsonOfBigFive (b : BigFiveScores) : List (String × Int) :=
  [("openness", b.openness),
   ("conscientiousness", b.conscientiousness),
   ("extraversion", b.extraversion),
   ("agreeableness", b.agreeableness),
   ("neuroticism", b.neuroticism)]

/-- The JSON object produced by the `json` branch of `handleExport`
(`JSON.stringify(activeProfile, null, 2)`, `App.tsx` line 421), keys in the
profile's property order. -/
def jsonOfProfile (p : PsychologicalProfile) : List (String × JsonVal) :=
  [("id", .str p.id),
   ("firstName", .str p.firstName),
   ("lastName", .str p.lastName),
   ("dateOfBirth", .str p.dateOfBirth),
   ("lastUpdated", .num p.lastUpdated),
   ("bigFive", .numObj (jsonOfBigFive p.bigFive)),
   ("mbti", .str p.mbti),
   ("enneagram", .str p.enneagram),
   ("attachmentStyle", .str p.attachmentStyle),
   ("summary", .str p.summary),
   ("keyTraits", .strArr p.keyTraits),
   ("bodyLanguageNotes", .strArr p.bodyLanguageNotes),
   ("toneVoiceNotes", .strArr p.toneVoiceNotes),
   ("history", .objArr (p.history.map jsonOfHistoryItem))]

/-! ## Unfolding lemmas for the merge engine -/

/-- The firstName computed by a merge, as a case expression. -/
theorem mergeProfile_firstName (cur : PsychologicalProfile)
    (res : AnalysisResponse) (type : MediaType) (files : List String)
    (histId : String) (now : Nat) :
    (mergeProfile cur res type files histId now).firstName =
      match res.candidateProfile with
      | some c =>
        if jsTruthy c.firstName &&
            (cur.firstName == "New" || cur.firstName == "Subject" ||
              cur.firstName == "") then
          c.firstName.getD ""
        else cur.firstName
      | none => cur.firstName := rfl

/-- The lastName computed by a merge, as a case expression. -/
theorem mergeProfile_lastName (cur : PsychologicalProfile)
    (res : AnalysisResponse) (type : MediaType) (files : List String)
    (histId : String) (now : Nat) :
    (mergeProfile cur res type files histId now).lastName =
      match res.candidateProfile with
      | some c =>
        if jsTruthy c.lastName &&
            (cur.lastName == "Subject" || cur.lastName == "001" ||
              cur.lastName == "") then
          c.lastName.getD ""
        else cur.lastName
      | none => cur.lastName := rfl

/-- The dateOfBirth computed by a merge, as a case expression. -/
theorem mergeProfile_dateOfBirth (cur : PsychologicalProfile)
    (res : AnalysisResponse) (type : MediaType) (files : List String)
    (histId : String) (now : Nat) :
    (mergeProfile cur res type files histId now).dateOfBirth =
      match res.candidateProfile with
      | some c =>
        if jsTruthy c.dateOfBirth && cur.dateOfBirth == "" then
          c.dateOfBirth.getD ""
        else cur.dateOfBirth
      | none => cur.dateOfBirth := rfl

/-- C3: a successful merge appends exactly one entry to `history` and leaves
each notes list either unchanged or extended by the single provided note, so
none of the three lists ever shrinks. -/
theorem c3_monotonic_append (cur : PsychologicalProfile)
    (res : AnalysisResponse) (type : MediaType) (files : List String)
    (histId : String) (now : Nat) :
    (mergeProfile cur res type files histId now).history =
      cur.history ++
        [{ id := histId, timestamp := now, type := type,
           summary := res.newObservations,
           fileName := some (historyFileLabel files) }] ∧
    (mergeProfile cur res type files histId now).history.length =
      cur.history.length + 1 ∧
    ((mergeProfile cur res type files histId now).bodyLanguageNotes =
        cur.bodyLanguageNotes ∨
      ∃ n, res.bodyLanguageAnalysis = some n ∧
        (mergeProfile cur res type files histId now).bodyLanguageNotes =
          cur.bodyLanguageNotes ++ [n]) ∧
    ((mergeProfile cur res type files histId now).toneVoiceNotes =
        cur.toneVoiceNotes ∨
      ∃ n, res.toneAnalysis = some n ∧
        (mergeProfile cur res type files histId now).toneVoiceNotes =
          cur.toneVoiceNotes ++ [n]) ∧
    cur.bodyLanguageNotes.length ≤
      (mergeProfile cur res type files histId now).bodyLanguageNotes.length ∧
    cur.toneVoiceNotes.length ≤
      (mergeProfile cur res type files histId now).toneVoiceNotes.length := by
  refine ⟨rfl, by simp [mergeProfile], ?_, ?_, ?_, ?_⟩
  · rcases hb : res.bodyLanguageAnalysis with _ | n
    · left; simp [mergeProfile, jsTruthy, hb]
    · by_cases hn : n = ""
      · left; simp [mergeProfile, jsTruthy, hb, hn]
      · right; exact ⟨n, rfl, by simp [mergeProfile, jsTruthy, hb, hn]⟩
  · rcases ht : res.toneAnalysis with _ | n
    · left; simp [mergeProfile, jsTruthy, ht]
    · by_cases hn : n = ""
      · left; simp [mergeProfile, jsTruthy, ht, hn]
      · right; exact ⟨n, rfl, by simp [mergeProfile, jsTruthy, ht, hn]⟩
  · rcases hb : res.bodyLanguageAnalysis with _ | n
    · simp [mergeProfile, jsTruthy, hb]
    · by_cases hn : n = "" <;> simp [mergeProfile, jsTruthy, hb, hn]
  · rcases ht : res.toneAnalysis with _ | n
    · simp [mergeProfile, jsTruthy, ht]
    · by_cases hn : n = "" <;> simp [mergeProfile, jsTruthy, ht, hn]

/-- C4: a merge changes `dateOfBirth` only when the pre-merge value is empty,
and then only to a non-empty candidate value supplied by the delta; once
non-empty it is never changed. -/
theorem c4_dob_policy (cur : PsychologicalProfile) (res : AnalysisResponse)
    (type : MediaType) (files : List String) (histId : String) (now : Nat) :
    (cur.dateOfBirth ≠ "" →
      (mergeProfile cur res type files histId now).dateOfBirth =
        cur.dateOfBirth) ∧
    ((mergeProfile cur res type files histId now).dateOfBirth ≠
        cur.dateOfBirth →
      cur.dateOfBirth = "" ∧
        ∃ c d, res.candidateProfile = some c ∧ c.dateOfBirth = some d ∧
          d ≠ "" ∧
          (mergeProfile cur res type files histId now).dateOfBirth = d) := by
  have hd := mergeProfile_dateOfBirth cur res type files histId now
  constructor
  · intro hne
    rw [hd]
    rcases res.candidateProfile with _ | c
    · rfl
    · simp [hne]
  · intro hchg
    rcases hc : res.candidateProfile with _ | c
    · exact absurd (by rw [mergeProfile_dateOfBirth, hc]) hchg
    · have hd :
          (mergeProfile cur res type files histId now).dateOfBirth =
            if jsTruthy c.dateOfBirth && cur.dateOfBirth == "" then
              c.dateOfBirth.getD ""
            else cur.dateOfBirth := by
        rw [mergeProfile_dateOfBirth, hc]
      rcases hdob : c.dateOfBirth with _ | d
      · rw [hdob] at hd; simp [jsTruthy] at hd; exact absurd hd hchg
      · rw [hdob] at hd
        by_cases hde : d = ""
        · rw [hde] at hd; simp [jsTruthy] at hd; exact absurd hd hchg
        · by_cases hcur : cur.dateOfBirth = ""
          · exact ⟨hcur, c, d, rfl, hdob, hde,
              by rw [hd]; simp [jsTruthy, hde, hcur]⟩
          · simp [jsTruthy, hde, hcur] at hd; exact absurd hd hchg

/-- C4 witness: a profile whose DOB is already set keeps it through a merge
that supplies a different candidate DOB. -/
theorem c4_dob_witness :
    (mergeProfile
      { generateNewProfile "p0" 0 with dateOfBirth := "1980-02-02" }
      { candidateProfile :=
          some { firstName := some "Alex", lastName := some "Stone",
                 dateOfBirth := some "1999-09-09" }
        bigFive := { openness := 70, conscientiousness := 60,
                     extraversion := 40, agreeableness := 55,
                     neuroticism := 45 }
        mbti := "INTJ", enneagram := "5w4", attachmentStyle := "Secure",
        summary := "S", keyTraits := ["calm"], newObservations := "obs",
        bodyLanguageAnalysis := none, toneAnalysis := none }
      MediaType.IMAGE ["a.png"] "h1" 5).dateOfBirth = "1980-02-02" :=
  (c4_dob_policy
    { generateNewProfile "p0" 0 with dateOfBirth := "1980-02-02" }
    { candidateProfile :=
        some { firstName := some "Alex", lastName := some "Stone",
               dateOfBirth := some "1999-09-09" }
      bigFive := { openness := 70, conscientiousness := 60,
                   extraversion := 40, agreeableness := 55,
                   neuroticism := 45 }
      mbti := "INTJ", enneagram := "5w4", attachmentStyle := "Secure",
      summary := "S", keyTraits := ["calm"], newObservations := "obs",
      bodyLanguageAnalysis := none, toneAnalysis := none }
    MediaType.IMAGE ["a.png"] "h1" 5).1 (by decide)

/-- C8: the appended history entry's file label is the sole file's name for a
one-file batch, and the aggregate count label for a batch of more than one
file. -/
theorem c8_file_label (cur : PsychologicalProfile) (res : AnalysisResponse)
    (type : MediaType) (files : List String) (histId : String) (now : Nat) :
    (∀ f, files = [f] →
      (mergeProfile cur res type files histId now).history.getLast? =
        some { id := histId, timestamp := now, type := type,
               summary := res.newObservations, fileName := some f }) ∧
    (1 < files.length →
      (mergeProfile cur res type files histId now).history.getLast? =
        some { id := histId, timestamp := now, type := type,
               summary := res.newObservations,
               fileName :=
                 some (toString files.length ++ " files uploaded") }) := by
  have hlast :
      (mergeProfile cur res type files histId now).history.getLast? =
        some { id := histId, timestamp := now, type := type,
               summary := res.newObservations,
               fileName := some (historyFileLabel files) } := by
    rw [(c3_monotonic_append cur res type files histId now).1]
    exact List.getLast?_concat _
  constructor
  · intro f hf
    subst hf
    simpa [historyFileLabel] using hlast
  · intro hlen
    rw [hlast]
    simp [historyFileLabel, hlen, Nat.not_le.mpr hlen]

/-- C8 witness: the label for a two-file batch is "2 files uploaded", and for
the single file "chat.png" it is "chat.png". -/
theorem c8_file_label_witness :
    (mergeProfile (generateNewProfile "p0" 0)
      { candidateProfile := none
        bigFive := { openness := 70, conscientiousness := 60,
                     extraversion := 40, agreeableness := 55,
                     neuroticism := 45 }
        mbti := "INTJ", enneagram := "5w4", attachmentStyle := "Secure",
        summary := "S", keyTraits := [], newObservations := "obs",
        bodyLanguageAnalysis := none, toneAnalysis := none }
      MediaType.IMAGE ["a.png", "b.png"] "h1" 5).history.getLast? =
      some { id := "h1", timestamp := 5, type := MediaType.IMAGE,
             summary := "obs", fileName := some "2 files uploaded" } ∧
    (mergeProfile (generateNewProfile "p0" 0)
      { candidateProfile := none
        bigFive := { openness := 70, conscientiousness := 60,
                     extraversion := 40, agreeableness := 55,
                     neuroticism := 45 }
        mbti := "INTJ", enneagram := "5w4", attachmentStyle := "Secure",
        summary := "S", keyTraits := [], newObservations := "obs",
        bodyLanguageAnalysis := none, toneAnalysis := none }
      MediaType.VIDEO ["chat.png"] "h2" 6).history.getLast? =
      some { id := "h2", timestamp := 6, type := MediaType.VIDEO,
             summary := "obs", fileName := some "chat.png" } :=
  ⟨(c8_file_label (generateNewProfile "p0" 0)
      { candidateProfile := none
        bigFive := { openness := 70, conscientiousness := 60,
                     extraversion := 40, agreeableness := 55,
                     neuroticism := 45 }
        mbti := "INTJ", enneagram := "5w4", attachmentStyle := "Secure",
        summary := "S", keyTraits := [], newObservations := "obs",
        bodyLanguageAnalysis := none, toneAnalysis := none }
      MediaType.IMAGE ["a.png", "b.png"] "h1" 5).2 (by decide),
   (c8_file_label (generateNewProfile "p0" 0)
      { candidateProfile := none
        bigFive := { openness := 70, conscientiousness := 60,
                     extraversion := 40, agreeableness := 55,
                     neuroticism := 45 }
        mbti := "INTJ", enneagram := "5w4", attachmentStyle := "Secure",
        summary := "S", keyTraits := [], newObservations := "obs",
        bodyLanguageAnalysis := none, toneAnalysis := none }
      MediaType.VIDEO ["chat.png"] "h2" 6).1 "chat.png" rfl⟩

/-- A concrete analysis delta carrying candidate identity fields. -/
def c1Delta : AnalysisResponse :=
  { candidateProfile :=
      some { firstName := some "Alex", lastName := some "Stone",
             dateOfBirth := none }
    bigFive := { openness := 70, conscientiousness := 60, extraversion := 40,
                 agreeableness := 55, neuroticism := 45 }
    mbti := "INTJ", enneagram := "5w4", attachmentStyle := "Secure",
    summary := "S", keyTraits := [], newObservations := "obs",
    bodyLanguageAnalysis := none, toneAnalysis := none }

/-- C1 counterexample: a pre-merge firstName of "Subject" is neither empty nor
the firstName sentinel "New", yet the merge overwrites it with the delta's
candidate "Alex" — the code's guard also accepts "Subject" for firstName. -/
theorem c1_counterexample :
    (mergeProfile { generateNewProfile "p1" 0 with firstName := "Subject" }
        c1Delta MediaType.IMAGE ["a.png"] "h1" 5).firstName = "Alex" ∧
    ({ generateNewProfile "p1" 0 with
        firstName := "Subject" } : PsychologicalProfile).firstName =
      "Subject" ∧
    ("Subject" : String) ≠ "" ∧ ("Subject" : String) ≠ "New" ∧
    ("Alex" : String) ≠ "Subject" := by
  refine ⟨by decide, rfl, by decide, by decide, by decide⟩

/-- C1 (amended): firstName is overwritten by the delta's candidate exactly
when the delta supplies a non-empty candidate firstName and the pre-merge
firstName is empty or equals "New" or "Subject"; lastName exactly when the
delta supplies a non-empty candidate lastName and the pre-merge lastName is
empty or equals "Subject" or "001"; in every other case both are left
unchanged. -/
theorem c1_name_policy (cur : PsychologicalProfile) (res : AnalysisResponse)
    (type : MediaType) (files : List String) (histId : String) (now : Nat) :
    ((mergeProfile cur res type files histId now).firstName ≠ cur.firstName →
      ∃ c f, res.candidateProfile = some c ∧ c.firstName = some f ∧ f ≠ "" ∧
        (mergeProfile cur res type files histId now).firstName = f ∧
        (cur.firstName = "New" ∨ cur.firstName = "Subject" ∨
          cur.firstName = "")) ∧
    (∀ c f, res.candidateProfile = some c → c.firstName = some f → f ≠ "" →
      (cur.firstName = "New" ∨ cur.firstName = "Subject" ∨
        cur.firstName = "") →
      (mergeProfile cur res type files histId now).firstName = f) ∧
    ((mergeProfile cur res type files histId now).lastName ≠ cur.lastName →
      ∃ c f, res.candidateProfile = some c ∧ c.lastName = some f ∧ f ≠ "" ∧
        (mergeProfile cur res type files histId now).lastName = f ∧
        (cur.lastName = "Subject" ∨ cur.lastName = "001" ∨
          cur.lastName = "")) ∧
    (∀ c f, res.candidateProfile = some c → c.lastName = some f → f ≠ "" →
      (cur.lastName = "Subject" ∨ cur.lastName = "001" ∨ cur.lastName = "") →
      (mergeProfile cur res type files histId now).lastName = f) := by
  refine ⟨?_, ?_, ?_, ?_⟩
  · intro hne
    rcases hc : res.candidateProfile with _ | c
    · exact absurd (by rw [mergeProfile_firstName, hc]) hne
    · have hd : (mergeProfile cur res type files histId now).firstName =
          if jsTruthy c.firstName &&
              (cur.firstName == "New" || cur.firstName == "Subject" ||
                cur.firstName == "") then
            c.firstName.getD ""
          else cur.firstName := by
        rw [mergeProfile_firstName, hc]
      rcases hf : c.firstName with _ | f
      · rw [hf] at hd; simp [jsTruthy] at hd; exact absurd hd hne
      · rw [hf] at hd
        by_cases hfe : f = ""
        · rw [hfe] at hd; simp [jsTruthy] at hd; exact absurd hd hne
        · by_cases hcond : cur.firstName = "New" ∨ cur.firstName = "Subject" ∨
              cur.firstName = ""
          · refine ⟨c, f, rfl, hf, hfe, ?_, hcond⟩
            rw [hd]
            rcases hcond with h | h | h <;> simp [jsTruthy, hfe, h]
          · push_neg at hcond
            simp [jsTruthy, hfe, hcond.1, hcond.2.1, hcond.2.2] at hd
            exact absurd hd hne
  · intro c f hc hf hfe hcond
    have hd : (mergeProfile cur res type files histId now).firstName =
        if jsTruthy c.firstName &&
            (cur.firstName == "New" || cur.firstName == "Subject" ||
              cur.firstName == "") then
          c.firstName.getD ""
        else cur.firstName := by
      rw [mergeProfile_firstName, hc]
    rw [hd, hf]
    rcases hcond with h | h | h <;> simp [jsTruthy, hfe, h]
  · intro hne
    rcases hc : res.candidateProfile with _ | c
    · exact absurd (by rw [mergeProfile_lastName, hc]) hne
    · have hd : (mergeProfile cur res type files histId now).lastName =
          if jsTruthy c.lastName &&
              (cur.lastName == "Subject" || cur.lastName == "001" ||
                cur.lastName == "") then
            c.lastName.getD ""
          else cur.lastName := by
        rw [mergeProfile_lastName, hc]
      rcases hf : c.lastName with _ | f
      · rw [hf] at hd; simp [jsTruthy] at hd; exact absurd hd hne
      · rw [hf] at hd
        by_cases hfe : f = ""
        · rw [hfe] at hd; simp [jsTruthy] at hd; exact absurd hd hne
        · by_cases hcond : cur.lastName = "Subject" ∨ cur.lastName = "001" ∨
              cur.lastName = ""
          · refine ⟨c, f, rfl, hf, hfe, ?_, hcond⟩
            rw [hd]
            rcases hcond with h | h | h <;> simp [jsTruthy, hfe, h]
          · push_neg at hcond
            simp [jsTruthy, hfe, hcond.1, hcond.2.1, hcond.2.2] at hd
            exact absurd hd hne
  · intro c f hc hf hfe hcond
    have hd : (mergeProfile cur res type files histId now).lastName =
        if jsTruthy c.lastName &&
            (cur.lastName == "Subject" || cur.lastName == "001" ||
              cur.lastName == "") then
          c.lastName.getD ""
        else cur.lastName := by
      rw [mergeProfile_lastName, hc]
    rw [hd, hf]
    rcases hcond with h | h | h <;> simp [jsTruthy, hfe, h]

/-- C1 witness: a fresh default profile ("New"/"Subject") does take the
candidate names "Alex"/"Stone". -/
theorem c1_name_policy_witness :
    (mergeProfile (generateNewProfile "p0" 0) c1Delta MediaType.IMAGE
      ["a.png"] "h1" 5).firstName = "Alex" ∧
    (mergeProfile (generateNewProfile "p0" 0) c1Delta MediaType.IMAGE
      ["a.png"] "h1" 5).lastName = "Stone" :=
  ⟨(c1_name_policy (generateNewProfile "p0" 0) c1Delta MediaType.IMAGE
      ["a.png"] "h1" 5).2.1 _ "Alex" rfl rfl (by decide) (Or.inl rfl),
   (c1_name_policy (generateNewProfile "p0" 0) c1Delta MediaType.IMAGE
      ["a.png"] "h1" 5).2.2.2 _ "Stone" rfl rfl (by decide) (Or.inl rfl)⟩

/-! ## Store lemmas -/

/-- Rebinding the entries matching `key` leaves every other key's binding
unchanged. -/
theorem lookupStore_map_rebind (s : Store) (key other : String)
    (v : PsychologicalProfile) (h : ¬ other = key) :
    lookupStore (s.map (fun kv => if kv.1 = key then (key, v) else kv)) other
      = lookupStore s other := by
  induction s with
  | nil => rfl
  | cons kv rest ih =>
    rcases kv with ⟨k0, v0⟩
    by_cases hk : k0 = key
    · subst hk
      have h2 : ¬ k0 = other := fun hh => h hh.symm
      show lookupStore
          ((if (k0, v0).1 = k0 then (k0, v) else (k0, v0)) ::
            List.map (fun kv => if kv.1 = k0 then (k0, v) else kv) rest) other
        = lookupStore ((k0, v0) :: rest) other
      rw [if_pos rfl]
      simp only [lookupStore]
      rw [if_neg h2, if_neg h2]
      exact ih
    · show lookupStore
          ((if (k0, v0).1 = key then (key, v) else (k0, v0)) ::
            List.map (fun kv => if kv.1 = key then (key, v) else kv) rest)
          other
        = lookupStore ((k0, v0) :: rest) other
      rw [if_neg hk]
      simp only [lookupStore]
      rw [ih]

/-- Appending a binding for `key` at the end does not affect lookups of other
keys. -/
theorem lookupStore_append_single (s : Store) (key other : String)
    (v : PsychologicalProfile) (h : ¬ other = key) :
    lookupStore (s ++ [(key, v)]) other = lookupStore s other := by
  induction s with
  | nil =>
    have h2 : key ≠ other := fun hh => h hh.symm
    simp [lookupStore, h2]
  | cons kv rest ih =>
    rcases kv with ⟨k0, v0⟩
    simp [lookupStore, ih]

/-- `{ ...prev, [key]: v }` leaves every other key's binding unchanged. -/
theorem lookupStore_setStore_other (s : Store) (key other : String)
    (v : PsychologicalProfile) (h : ¬ other = key) :
    lookupStore (setStore s key v) other = lookupStore s other := by
  unfold setStore
  split
  · exact lookupStore_map_rebind s key other v h
  · exact lookupStore_append_single s key other v h

/-- When `key` is bound, rebinding it makes it map to the new value. -/
theorem lookupStore_map_rebind_same (s : Store) (key : String)
    (v : PsychologicalProfile) (hs : (lookupStore s key).isSome) :
    lookupStore (s.map (fun kv => if kv.1 = key then (key, v) else kv)) key
      = some v := by
  induction s with
  | nil => simp [lookupStore] at hs
  | cons kv rest ih =>
    rcases kv with ⟨k0, v0⟩
    by_cases hk : k0 = key
    · subst hk
      show lookupStore
          ((if (k0, v0).1 = k0 then (k0, v) else (k0, v0)) ::
            List.map (fun kv => if kv.1 = k0 then (k0, v) else kv) rest) k0
        = some v
      rw [if_pos rfl]
      simp only [lookupStore]
      simp
    · have hs' : (lookupStore rest key).isSome := by
        simpa [lookupStore, hk] using hs
      show lookupStore
          ((if (k0, v0).1 = key then (key, v) else (k0, v0)) ::
            List.map (fun kv => if kv.1 = key then (key, v) else kv) rest) key
        = some v
      rw [if_neg hk]
      simp only [lookupStore]
      rw [if_neg hk]
      exact ih hs'

/-- C9: a successful merge against the active id rebinds only that id — every
other id keeps exactly its previous profile, the active id maps to the merged
profile, and the merged profile keeps the id of the profile it replaces. -/
theorem c9_frame (prev : Store) (activeProfileId : String)
    (res : AnalysisResponse) (type : MediaType) (files : List String)
    (histId : String) (now : Nat) (cur : PsychologicalProfile)
    (hcur : lookupStore prev activeProfileId = some cur) :
    (∀ k, k ≠ activeProfileId →
      lookupStore
        (handleAnalysisUpdate prev activeProfileId res type files histId now) k
        = lookupStore prev k) ∧
    lookupStore
        (handleAnalysisUpdate prev activeProfileId res type files histId now)
        activeProfileId
      = some (mergeProfile cur res type files histId now) ∧
    (mergeProfile cur res type files histId now).id = cur.id := by
  have hrw : handleAnalysisUpdate prev activeProfileId res type files histId
        now
      = setStore prev activeProfileId
          (mergeProfile cur res type files histId now) := by
    unfold handleAnalysisUpdate
    rw [hcur]
  have hs : (lookupStore prev activeProfileId).isSome := by rw [hcur]; rfl
  refine ⟨?_, ?_, rfl⟩
  · intro k hk
    rw [hrw]
    exact lookupStore_setStore_other prev activeProfileId k _ hk
  · rw [hrw]
    unfold setStore
    rw [if_pos hs]
    exact lookupStore_map_rebind_same prev activeProfileId _ hs

/-- C9 witness: with two profiles in the store, merging into "a" leaves "b"
bound to exactly its previous profile. -/
theorem c9_frame_witness :
    lookupStore
      (handleAnalysisUpdate
        [("a", generateNewProfile "a" 0), ("b", generateNewProfile "b" 1)]
        "a" c1Delta MediaType.IMAGE ["x.png"] "h9" 2) "b"
      = some (generateNewProfile "b" 1) :=
  (c9_frame [("a", generateNewProfile "a" 0), ("b", generateNewProfile "b" 1)]
      "a" c1Delta MediaType.IMAGE ["x.png"] "h9" 2
      (generateNewProfile "a" 0) rfl).1 "b" (by decide)

/-- C5: confirmed deletion of the active profile resets an emptied store to
exactly the fresh default profile with the active id referencing it, and
otherwise re-points the active id at the first remaining entry in iteration
order (which it references). -/
theorem c5_delete_policy (profiles : Store) (activeProfileId : String)
    (fresh : PsychologicalProfile) :
    (eraseStore profiles activeProfileId = [] →
      handleDeleteProfile profiles activeProfileId fresh =
        ([(fresh.id, fresh)], fresh.id) ∧
      lookupStore [(fresh.id, fresh)] fresh.id = some fresh) ∧
    (∀ k p rest, eraseStore profiles activeProfileId = (k, p) :: rest →
      handleDeleteProfile profiles activeProfileId fresh =
        ((k, p) :: rest, k) ∧
      lookupStore ((k, p) :: rest) k = some p) := by
  constructor
  · intro h
    refine ⟨?_, by simp [lookupStore]⟩
    unfold handleDeleteProfile
    rw [h]
    rfl
  · intro k p rest h
    refine ⟨?_, by simp [lookupStore]⟩
    unfold handleDeleteProfile
    rw [h]
    rfl

/-- C5 witness: deleting the only profile installs the fresh default and
activates it; deleting one of two re-points the active id at the survivor. -/
theorem c5_delete_witness :
    handleDeleteProfile [("a", generateNewProfile "a" 0)] "a"
        (generateNewProfile "b" 1)
      = ([("b", generateNewProfile "b" 1)], "b") ∧
    handleDeleteProfile
        [("a", generateNewProfile "a" 0), ("c", generateNewProfile "c" 2)] "a"
        (generateNewProfile "b" 1)
      = ([("c", generateNewProfile "c" 2)], "c") :=
  ⟨((c5_delete_policy [("a", generateNewProfile "a" 0)] "a"
      (generateNewProfile "b" 1)).1 (by decide)).1,
   ((c5_delete_policy
      [("a", generateNewProfile "a" 0), ("c", generateNewProfile "c" 2)] "a"
      (generateNewProfile "b" 1)).2 "c" (generateNewProfile "c" 2) []
      (by decide)).1⟩

/-- Branch lemma: a truthy (present, non-empty) profile-map payload sends
`loadData` into the parse-the-current-format path, never the legacy path. -/
theorem loadData_db (s : String) (savedActiveId legacyRaw : Option String)
    (parseDb : String → Option Store)
    (parseLegacy : String → Option LegacyProfile)
    (freshId newId : String) (now : Nat) (hne : s ≠ "") :
    loadData (some s) savedActiveId legacyRaw parseDb parseLegacy freshId
        newId now =
      match parseDb s with
      | some parsed =>
          { profiles := parsed
            activeProfileId := restoreActiveId parsed savedActiveId
            legacyRemoved := false }
      | none =>
          let newP := generateNewProfile freshId now
          { profiles := [(newP.id, newP)]
            activeProfileId := some newP.id
            legacyRemoved := false } := by
  have ht : jsTruthy (some s) = true := by simp [jsTruthy, hne]
  unfold loadData
  rw [ht]
  rfl

/-- Branch lemma: with no profile-map payload and a truthy legacy payload,
`loadData` takes the legacy-migration path. -/
theorem loadData_legacy (ls : String) (savedActiveId : Option String)
    (parseDb : String → Option Store)
    (parseLegacy : String → Option LegacyProfile)
    (freshId newId : String) (now : Nat) (hne : ls ≠ "") :
    loadData none savedActiveId (some ls) parseDb parseLegacy freshId newId
        now =
      match parseLegacy ls with
      | some parsedLegacy =>
          let migrated :=
            migrateLegacy parsedLegacy (generateNewProfile freshId now) newId
          { profiles := [(newId, migrated)]
            activeProfileId := some newId
            legacyRemoved := true }
      | none =>
          let newP := generateNewProfile freshId now
          { profiles := [(newP.id, newP)]
            activeProfileId := some newP.id
            legacyRemoved := false } := by
  have ht : jsTruthy (some ls) = true := by simp [jsTruthy, hne]
  unfold loadData
  rw [ht]
  rfl

/-- C6 counterexample: the empty-string payload is syntactically invalid JSON,
but it is falsy to the `if (savedProfiles)` guard, so with a valid legacy
record present `loadData` migrates that record (and removes the legacy key)
instead of resetting to one fresh default profile. -/
theorem c6_counterexample :
    loadData (some "") none (some "legacy-payload") (fun _ => none)
        (fun _ => some janeDoeLegacy) "fresh-1" "m-1" 7 =
      { profiles :=
          [("m-1",
            { generateNewProfile "fresh-1" 7 with
                id := "m-1", firstName := "Jane", lastName := "Doe" })]
        activeProfileId := some "m-1"
        legacyRemoved := true } ∧
    ({ generateNewProfile "fresh-1" 7 with
        id := "m-1", firstName := "Jane", lastName := "Doe" } :
        PsychologicalProfile) ≠ generateNewProfile "fresh-1" 7 :=
  ⟨rfl, by decide⟩

/-- C6 (amended): a present, non-empty, unparseable profile-map payload makes
`loadData` return a store holding exactly one fresh default profile, the
active id pointing at it, and no legacy-key removal; the function is total,
so no exception reaches the caller.  (An empty payload is falsy to
`if (savedProfiles)` and falls through to the legacy-migration/fresh-start
path instead.) -/
theorem c6_corrupt_db (s : String) (savedActiveId legacyRaw : Option String)
    (parseDb : String → Option Store)
    (parseLegacy : String → Option LegacyProfile)
    (freshId newId : String) (now : Nat)
    (hne : s ≠ "") (hbad : parseDb s = none) :
    loadData (some s) savedActiveId legacyRaw parseDb parseLegacy freshId
        newId now =
      { profiles := [(freshId, generateNewProfile freshId now)]
        activeProfileId := some freshId
        legacyRemoved := false } := by
  rw [loadData_db s savedActiveId legacyRaw parseDb parseLegacy freshId newId
    now hne, hbad]
  rfl

/-- C6 witness: loading a concrete malformed payload yields the single fresh
profile "fresh-1" as the active profile. -/
theorem c6_corrupt_db_witness :
    loadData (some "not valid json") none none (fun _ => none)
        (fun _ => none) "fresh-1" "m-1" 7 =
      { profiles := [("fresh-1", generateNewProfile "fresh-1" 7)]
        activeProfileId := some "fresh-1"
        legacyRemoved := false } :=
  c6_corrupt_db "not valid json" none none (fun _ => none) (fun _ => none)
    "fresh-1" "m-1" 7 (by decide) rfl

/-- C7: with no current-format record and a legacy record whose only name
data is `name = "Jane Doe"`, `loadData` produces one migrated profile with
firstName "Jane", lastName "Doe", the freshly generated id `newId`, all other
fields from the profile defaults, activates it, and removes the legacy key
from persistence. -/
theorem c7_legacy_migration (savedActiveId : Option String) (ls : String)
    (parseDb : String → Option Store)
    (parseLegacy : String → Option LegacyProfile)
    (freshId newId : String) (now : Nat)
    (hne : ls ≠ "") (hleg : parseLegacy ls = some janeDoeLegacy) :
    loadData none savedActiveId (some ls) parseDb parseLegacy freshId newId
        now =
      { profiles :=
          [(newId,
            { generateNewProfile freshId now with
                id := newId, firstName := "Jane", lastName := "Doe" })]
        activeProfileId := some newId
        legacyRemoved := true } := by
  rw [loadData_legacy ls savedActiveId parseDb parseLegacy freshId newId now
    hne, hleg]
  rfl

/-- C7 witness: a concrete legacy load migrates "Jane Doe" into structured
names with the generated id "m-1". -/
theorem c7_legacy_migration_witness :
    loadData none none (some "legacy-payload") (fun _ => none)
        (fun _ => some janeDoeLegacy) "fresh-1" "m-1" 7 =
      { profiles :=
          [("m-1",
            { generateNewProfile "fresh-1" 7 with
                id := "m-1", firstName := "Jane", lastName := "Doe" })]
        activeProfileId := some "m-1"
        legacyRemoved := true } :=
  c7_legacy_migration none "legacy-payload" (fun _ => none)
    (fun _ => some janeDoeLegacy) "fresh-1" "m-1" 7 (by decide) rfl

/-- A concrete fully-populated profile used to probe the report formats. -/
def c2Base : PsychologicalProfile :=
  { id := "id0", firstName := "A", lastName := "B", dateOfBirth := "1990",
    lastUpdated := 1,
    bigFive := { openness := 10, conscientiousness := 20, extraversion := 30,
                 agreeableness := 40, neuroticism := 50 },
    mbti := "INTJ", enneagram := "5w4", attachmentStyle := "Secure",
    summary := "Sum", keyTraits := ["t1"],
    bodyLanguageNotes := ["b1"], toneVoiceNotes := ["v1"],
    history := [{ id := "h1", timestamp := 2, type := MediaType.IMAGE,
                  summary := "hs", fileName := some "f.png" }] }

/-- A concrete stand-in for the locale date renderings. -/
def natFmt : Nat → String := fun n => toString n

/-- C2 counterexample: two profiles that differ (only) in their `id` produce
identical plain-text and HTML reports, so the Profile field `id` does not
appear in those two export representations. -/
theorem c2_counterexample :
    generateTextReport natFmt natFmt { c2Base with id := "some-other-id" }
      = generateTextReport natFmt natFmt c2Base ∧
    generateHTMLReport natFmt natFmt 9 { c2Base with id := "some-other-id" }
      = generateHTMLReport natFmt natFmt 9 c2Base ∧
    ({ c2Base with id := "some-other-id" } : PsychologicalProfile) ≠ c2Base :=
  ⟨rfl, rfl, by decide⟩

/-- C2 (amended): every Profile field appears in the JSON export under its own
key; every field except `id` influences the plain-text report; every field
except `id` and `lastUpdated` influences the HTML report (which prints the
report-generation time, not `lastUpdated`, and ignores `id`). -/
theorem c2_field_coverage :
    (∀ p : PsychologicalProfile,
      jsonMember (jsonOfProfile p) "id" = some (.str p.id) ∧
      jsonMember (jsonOfProfile p) "firstName" = some (.str p.firstName) ∧
      jsonMember (jsonOfProfile p) "lastName" = some (.str p.lastName) ∧
      jsonMember (jsonOfProfile p) "dateOfBirth" = some (.str p.dateOfBirth) ∧
      jsonMember (jsonOfProfile p) "lastUpdated" = some (.num p.lastUpdated) ∧
      jsonMember (jsonOfProfile p) "bigFive" =
        some (.numObj (jsonOfBigFive p.bigFive)) ∧
      jsonMember (jsonOfProfile p) "mbti" = some (.str p.mbti) ∧
      jsonMember (jsonOfProfile p) "enneagram" = some (.str p.enneagram) ∧
      jsonMember (jsonOfProfile p) "attachmentStyle" =
        some (.str p.attachmentStyle) ∧
      jsonMember (jsonOfProfile p) "summary" = some (.str p.summary) ∧
      jsonMember (jsonOfProfile p) "keyTraits" =
        some (.strArr p.keyTraits) ∧
      jsonMember (jsonOfProfile p) "bodyLanguageNotes" =
        some (.strArr p.bodyLanguageNotes) ∧
      jsonMember (jsonOfProfile p) "toneVoiceNotes" =
        some (.strArr p.toneVoiceNotes) ∧
      jsonMember (jsonOfProfile p) "history" =
        some (.objArr (p.history.map jsonOfHistoryItem))) ∧
    (∀ (fmtDateTime fmtDate : Nat → String) (p : PsychologicalProfile)
        (i : String),
      generateTextReport fmtDateTime fmtDate { p with id := i }
        = generateTextReport fmtDateTime fmtDate p) ∧
    (∀ (fmtDateTime fmtDate : Nat → String) (now : Nat)
        (p : PsychologicalProfile) (i : String),
      generateHTMLReport fmtDateTime fmtDate now { p with id := i }
        = generateHTMLReport fmtDateTime fmtDate now p) ∧
    (∀ (fmtDateTime fmtDate : Nat → String) (now : Nat)
        (p : PsychologicalProfile) (lu : Nat),
      generateHTMLReport fmtDateTime fmtDate now { p with lastUpdated := lu }
        = generateHTMLReport fmtDateTime fmtDate now p) ∧
    generateTextReport natFmt natFmt { c2Base with firstName := "Z" }
      ≠ generateTextReport natFmt natFmt c2Base ∧
    generateTextReport natFmt natFmt { c2Base with lastName := "Z" }
      ≠ generateTextReport natFmt natFmt c2Base ∧
    generateTextReport natFmt natFmt { c2Base with dateOfBirth := "1991" }
      ≠ generateTextReport natFmt natFmt c2Base ∧
    generateTextReport natFmt natFmt { c2Base with lastUpdated := 3 }
      ≠ generateTextReport natFmt natFmt c2Base ∧
    generateTextReport natFmt natFmt
        { c2Base with
            bigFive := { openness := 11, conscientiousness := 20,
                         extraversion := 30, agreeableness := 40,
                         neuroticism := 50 } }
      ≠ generateTextReport natFmt natFmt c2Base ∧
    generateTextReport natFmt natFmt { c2Base with mbti := "ENFP" }
      ≠ generateTextReport natFmt natFmt c2Base ∧
    generateTextReport natFmt natFmt { c2Base with enneagram := "9w1" }
      ≠ generateTextReport natFmt natFmt c2Base ∧
    generateTextReport natFmt natFmt { c2Base with attachmentStyle := "X" }
      ≠ generateTextReport natFmt natFmt c2Base ∧
    generateTextReport natFmt natFmt { c2Base with summary := "Zum" }
      ≠ generateTextReport natFmt natFmt c2Base ∧
    generateTextReport natFmt natFmt { c2Base with keyTraits := ["t2"] }
      ≠ generateTextReport natFmt natFmt c2Base ∧
    generateTextReport natFmt natFmt
        { c2Base with bodyLanguageNotes := ["b2"] }
      ≠ generateTextReport natFmt natFmt c2Base ∧
    generateTextReport natFmt natFmt { c2Base with toneVoiceNotes := ["v2"] }
      ≠ generateTextReport natFmt natFmt c2Base ∧
    generateTextReport natFmt natFmt
        { c2Base with
            history := [{ id := "h1", timestamp := 2,
                          type := MediaType.IMAGE, summary := "hz",
                          fileName := some "f.png" }] }
      ≠ generateTextReport natFmt natFmt c2Base ∧
    generateHTMLReport natFmt natFmt 9 { c2Base with firstName := "Z" }
      ≠ generateHTMLReport natFmt natFmt 9 c2Base ∧
    generateHTMLReport natFmt natFmt 9 { c2Base with lastName := "Z" }
      ≠ generateHTMLReport natFmt natFmt 9 c2Base ∧
    generateHTMLReport natFmt natFmt 9 { c2Base with dateOfBirth := "1991" }
      ≠ generateHTMLReport natFmt natFmt 9 c2Base ∧
    generateHTMLReport natFmt natFmt 9
        { c2Base with
            bigFive := { openness := 11, conscientiousness := 20,
                         extraversion := 30, agreeableness := 40,
                         neuroticism := 50 } }
      ≠ generateHTMLReport natFmt natFmt 9 c2Base ∧
    generateHTMLReport natFmt natFmt 9 { c2Base with mbti := "ENFP" }
      ≠ generateHTMLReport natFmt natFmt 9 c2Base ∧
    generateHTMLReport natFmt natFmt 9 { c2Base with enneagram := "9w1" }
      ≠ generateHTMLReport natFmt natFmt 9 c2Base ∧
    generateHTMLReport natFmt natFmt 9
        { c2Base with attachmentStyle := "X" }
      ≠ generateHTMLReport natFmt natFmt 9 c2Base ∧
    generateHTMLReport natFmt natFmt 9 { c2Base with summary := "Zum" }
      ≠ generateHTMLReport natFmt natFmt 9 c2Base ∧
    generateHTMLReport natFmt natFmt 9 { c2Base with keyTraits := ["t2"] }
      ≠ generateHTMLReport natFmt natFmt 9 c2Base ∧
    generateHTMLReport natFmt natFmt 9
        { c2Base with bodyLanguageNotes := ["b2"] }
      ≠ generateHTMLReport natFmt natFmt 9 c2Base ∧
    generateHTMLReport natFmt natFmt 9
        { c2Base with toneVoiceNotes := ["v2"] }
      ≠ generateHTMLReport natFmt natFmt 9 c2Base ∧
    generateHTMLReport natFmt natFmt 9
        { c2Base with
            history := [{ id := "h1", timestamp := 2,
                          type := MediaType.IMAGE, summary := "hz",
                          fileName := some "f.png" }] }
      ≠ generateHTMLReport natFmt natFmt 9 c2Base := by
  refine ⟨fun p => ⟨rfl, rfl, rfl, rfl, rfl, rfl, rfl, rfl, rfl, rfl, rfl,
    rfl, rfl, rfl⟩, fun _ _ _ _ => rfl, fun _ _ _ _ _ => rfl,
    fun _ _ _ _ _ => rfl, ?_, ?_, ?_, ?_, ?_, ?_, ?_, ?_, ?_, ?_, ?_, ?_,
    ?_, ?_, ?_, ?_, ?_, ?_, ?_, ?_, ?_, ?_, ?_, ?_, ?_⟩
  · intro h
    exact absurd (congrArg (fun s => s.data.drop 60) h) (by decide)
  · intro h
    exact absurd (congrArg (fun s => s.data.drop 60) h) (by decide)
  · intro h
    exact absurd (congrArg (fun s => s.data.drop 70) h) (by decide)
  · intro h
    exact absurd (congrArg (fun s => s.data.drop 90) h) (by decide)
  · intro h
    exact absurd (congrArg (fun s => s.data.drop 290) h) (by decide)
  · intro h
    exact absurd (congrArg (fun s => s.data.drop 180) h) (by decide)
  · intro h
    exact absurd (congrArg (fun s => s.data.drop 200) h) (by decide)
  · intro h
    exact absurd (congrArg (fun s => s.data.drop 220) h) (by decide)
  · intro h
    exact absurd (congrArg (fun s => s.data.drop 130) h) (by decide)
  · intro h
    exact absurd (congrArg (fun s => s.data.drop 410) h) (by decide)
  · intro h
    exact absurd (congrArg (fun s => s.data.drop 480) h) (by decide)
  · intro h
    exact absurd (congrArg (fun s => s.data.drop 500) h) (by decide)
  · intro h
    exact absurd (congrArg (fun s => s.data.drop 548) h) (by decide)
  · intro h
    have hd := congrArg String.data h
    simp only [generateHTMLReport, c2Base, natFmt, String.data_append,
      List.append_assoc, List.append_right_inj] at hd
    exact absurd (congrArg (List.take 2) hd) (by decide)
  · intro h
    have hd := congrArg String.data h
    simp only [generateHTMLReport, c2Base, natFmt, String.data_append,
      List.append_assoc, List.append_right_inj] at hd
    exact absurd (congrArg (List.take 2) hd) (by decide)
  · intro h
    have hd := congrArg String.data h
    simp only [generateHTMLReport, c2Base, natFmt, String.data_append,
      List.append_assoc, List.append_right_inj] at hd
    exact absurd (congrArg (List.take 5) hd) (by decide)
  · intro h
    have hd := congrArg String.data h
    simp only [generateHTMLReport, c2Base, natFmt, String.data_append,
      List.append_assoc, List.append_right_inj] at hd
    exact absurd (congrArg (List.take 3) hd) (by decide)
  · intro h
    have hd := congrArg String.data h
    simp only [generateHTMLReport, c2Base, natFmt, String.data_append,
      List.append_assoc, List.append_right_inj] at hd
    exact absurd (congrArg (List.take 2) hd) (by decide)
  · intro h
    have hd := congrArg String.data h
    simp only [generateHTMLReport, c2Base, natFmt, String.data_append,
      List.append_assoc, List.append_right_inj] at hd
    exact absurd (congrArg (List.take 2) hd) (by decide)
  · intro h
    have hd := congrArg String.data h
    simp only [generateHTMLReport, c2Base, natFmt, String.data_append,
      List.append_assoc, List.append_right_inj] at hd
    exact absurd (congrArg (List.take 2) hd) (by decide)
  · intro h
    have hd := congrArg String.data h
    simp only [generateHTMLReport, c2Base, natFmt, String.data_append,
      List.append_assoc, List.append_right_inj] at hd
    exact absurd (congrArg (List.take 2) hd) (by decide)
  · intro h
    have hd := congrArg String.data h
    simp only [generateHTMLReport, c2Base, natFmt, String.data_append,
      List.append_assoc, List.append_right_inj] at hd
    exact absurd (congrArg (List.take 30) hd) (by decide)
  · intro h
    have hd := congrArg String.data h
    simp only [generateHTMLReport, c2Base, natFmt, String.data_append,
      List.append_assoc, List.append_right_inj] at hd
    exact absurd (congrArg (List.take 10) hd) (by decide)
  · intro h
    have hd := congrArg String.data h
    simp only [generateHTMLReport, c2Base, natFmt, String.data_append,
      List.append_assoc, List.append_right_inj] at hd
    exact absurd (congrArg (List.take 10) hd) (by decide)
  · intro h
    have hd := congrArg String.data h
    simp only [generateHTMLReport, c2Base, natFmt, String.data_append,
      List.append_assoc, List.append_right_inj] at hd
    exact absurd (congrArg (List.take 45) hd) (by decide)
